import Mathlib

/-!
Shallow embedding of the four static analyzers in
`code_assistant/agent_tools.py`: the structure analyzer, the security
scanner, the performance scanner and the documentation auditor.

Python strings are modelled as Lean `String`; `str.split('\n')`,
`str.strip()`, `str.lower()` and the `in` substring test are given
executable models below.  The Python `ast` module is external: its node
shapes are modelled by the inductive `PyNode`, `ast.walk`'s breadth-first
traversal by `walk`, and `ast.parse`'s outcome is passed to the tree-based
analyzers as an `Except ParseErr PyNode` value.
-/

/-- ASCII whitespace, the characters `str.strip()` removes for the inputs
considered here. -/
def pySpace (c : Char) : Bool :=
  c == ' ' || c == '\t' || c == '\n' || c == '\r' || c == '\x0b' || c == '\x0c'

/-- Model of Python `str.strip()` on the character list. -/
def pyStripChars (l : List Char) : List Char :=
  ((l.dropWhile pySpace).reverse.dropWhile pySpace).reverse

/-- Model of Python `str.strip()`. -/
def pyStrip (s : String) : String := ⟨pyStripChars s.data⟩

/-- Model of Python `str.lower()` (ASCII range, which covers every pattern
in the scanners' tables). -/
def pyLower (s : String) : String := ⟨s.data.map Char.toLower⟩

/-- Model of Python `str.split('\n')` on the character list: always returns
at least one (possibly empty) part. -/
def lineSplit : List Char → List (List Char)
  | [] => [[]]
  | c :: cs =>
    if c = '\n' then [] :: lineSplit cs
    else
      match lineSplit cs with
      | [] => [[c]]
      | l :: ls => (c :: l) :: ls

/-- Model of Python `code.split('\n')`. -/
def pySplitLines (s : String) : List String :=
  (lineSplit s.data).map (fun l => ⟨l⟩)

/-- Contiguous-substring test on character lists, the model of Python's
`needle in haystack`. -/
def substrB (p : List Char) : List Char → Bool
  | [] => p.isEmpty
  | c :: cs => p.isPrefixOf (c :: cs) || substrB p cs

/-- Model of Python `pat in hay` for strings. -/
def containsStr (hay pat : String) : Bool := substrB pat.data hay.data

/-!
Model of the Python `ast` nodes the analyzers inspect.  `other` stands for
every node kind the analyzers never match (`Module`, expression statements,
assignments, ...), carrying its child statements; `returnStmt b` is an
`ast.Return` whose `value` is present iff `b`.  A node's docstring models
`ast.get_docstring`: the cleaned string literal standing first in its body,
when there is one.
-/

inductive PyNode where
  | functionDef (name : String) (args : Nat) (lineno : Nat) (docstring : Option String) (body : List PyNode)
  | asyncFunctionDef (name : String) (args : Nat) (lineno : Nat) (docstring : Option String) (body : List PyNode)
  | classDef (name : String) (lineno : Nat) (docstring : Option String) (body : List PyNode)
  | importNode (names : List String)
  | importFrom (module : Option String)
  | returnStmt (hasValue : Bool)
  | other (children : List PyNode)

/-- The child nodes `ast.walk` pushes onto its queue. -/
def PyNode.children : PyNode → List PyNode
  | .functionDef _ _ _ _ body => body
  | .asyncFunctionDef _ _ _ _ body => body
  | .classDef _ _ _ body => body
  | .other cs => cs
  | _ => []

mutual
def nsize : PyNode → Nat
  | .functionDef _ _ _ _ body => 1 + lsize body
  | .asyncFunctionDef _ _ _ _ body => 1 + lsize body
  | .classDef _ _ _ body => 1 + lsize body
  | .importNode _ => 1
  | .importFrom _ => 1
  | .returnStmt _ => 1
  | .other cs => 1 + lsize cs
def lsize : List PyNode → Nat
  | [] => 0
  | n :: ns => nsize n + lsize ns
end

/-- Breadth-first traversal of a queue of nodes: the model of `ast.walk`,
which pops a node, yields it, and pushes its children at the end of the
queue. -/
def walkAux : List PyNode → List PyNode
  | [] => []
  | n :: rest => n :: walkAux (rest ++ n.children)
termination_by l => lsize l
decreasing_by
  have happ : ∀ a b : List PyNode, lsize (a ++ b) = lsize a + lsize b := by
    intro a b
    induction a with
    | nil => simp [lsize]
    | cons x xs ih => simp [lsize, ih]; omega
  have hch : lsize n.children < nsize n := by
    cases n <;> simp [PyNode.children, nsize, lsize]
  simp only [happ, lsize]
  omega

/-- Model of `ast.walk(n)`. -/
def walk (n : PyNode) : List PyNode := walkAux [n]

/-- Model of `isinstance(n, ast.Return)`. -/
def isRet : PyNode → Bool
  | .returnStmt _ => true
  | _ => false

/-- Model of `isinstance(n, ast.FunctionDef)`. -/
def isFunctionDef : PyNode → Bool
  | .functionDef _ _ _ _ _ => true
  | _ => false

/-- Outcome of `ast.parse` when it raises: a `SyntaxError` on malformed
source, or another exception (e.g. `ValueError` on a null byte). -/
inductive ParseErr where
  | syntaxError (msg : String)
  | otherError (msg : String)

/-- Model of Python `str(e)` for a parse exception. -/
def ParseErr.str : ParseErr → String
  | .syntaxError m => m
  | .otherError m => m

/-!
Security scanner: `check_security_issues` (agent_tools.py lines 94-139).
-/

/-- One entry of the `security_issues` list: the dict built at source
lines 126-132. -/
structure SecurityIssue where
  line : Nat
  pattern : String
  message : String
  severity : String
  code_snippet : String
deriving DecidableEq, Repr

/-- The `dangerous_patterns` table, source lines 109-120, in its insertion
order. -/
def dangerous_patterns : List (String × String) := [
  ("eval(", "Dangerous use of eval() - can execute arbitrary code"),
  ("exec(", "Dangerous use of exec() - can execute arbitrary code"),
  ("pickle.loads", "Unsafe deserialization with pickle - can execute code"),
  ("__import__", "Dynamic imports can be security risk"),
  ("os.system", "Direct system calls - prefer subprocess with shell=False"),
  ("shell=True", "Shell injection risk - avoid shell=True in subprocess"),
  ("sql", "Potential SQL injection - use parameterized queries"),
  ("password", "Hardcoded password detected - use environment variables"),
  ("api_key", "Hardcoded API key detected - use environment variables"),
  ("SECRET", "Hardcoded secret detected - use environment variables")]

/-- The issues one line contributes: the inner `for pattern, message in
dangerous_patterns.items()` loop of source lines 122-132, for the line
numbered `i`. -/
def scanLine (i : Nat) (line : String) : List SecurityIssue :=
  let line_lower := pyLower line
  dangerous_patterns.filterMap (fun pm =>
    if containsStr line_lower pm.1 then
      some ⟨i, pm.1, pm.2,
            if ["eval(", "exec(", "pickle.loads"].contains pm.1 then "HIGH" else "MEDIUM",
            pyStrip line⟩
    else none)

/-- The outer `for i, line in enumerate(lines, 1)` loop, accumulating the
per-line issues in order, starting the numbering at `k`. -/
def scanLinesFrom (k : Nat) : List String → List SecurityIssue
  | [] => []
  | l :: ls => scanLine k l ++ scanLinesFrom (k + 1) ls

/-- The dict returned at source lines 134-139. -/
structure SecurityResult where
  status : String
  issues_found : Nat
  security_issues : List SecurityIssue
  safe : Bool
deriving DecidableEq, Repr

/-- Model of `check_security_issues`. -/
def check_security_issues (code : String) : SecurityResult :=
  let lines := pySplitLines code
  let security_issues := scanLinesFrom 1 lines
  ⟨"success", security_issues.length, security_issues, security_issues.length == 0⟩

/-!
Performance scanner: `check_performance_issues` (agent_tools.py
lines 152-208).
-/

/-- One entry of the `performance_issues` list (source lines 189-201;
unlike the security scanner it records no pattern field). -/
structure PerfIssue where
  line : Nat
  message : String
  severity : String
  code_snippet : String
deriving DecidableEq, Repr

/-- The `patterns` table, source lines 168-174. -/
def perf_patterns : List (String × String) := [
  ("for i in range(len(", "Use enumerate() instead of range(len())"),
  (".append(", "Consider list comprehension if building list in loop"),
  ("global ", "Global variables can hurt performance and readability"),
  ("+ str(", "String concatenation in loop - use join() or f-strings"),
  ("try:", "Empty except blocks hide errors (if found)")]

/-- The issues one stripped line contributes (inner loop, source
lines 186-201), given the in-loop flag as updated for that line. -/
def perfLineIssues (in_loop : Bool) (i : Nat) (stripped : String) : List PerfIssue :=
  perf_patterns.filterMap (fun pm =>
    if containsStr stripped pm.1 then
      if pm.1 == ".append(" && in_loop then some ⟨i, pm.2, "LOW", stripped⟩
      else if pm.1 != ".append(" then some ⟨i, pm.2, "MEDIUM", stripped⟩
      else none
    else none)

/-- One iteration of the outer loop (source lines 177-201): strip the line,
update the `in_loop` flag exactly as lines 181-184 do — note the dedent
test is made on the already-stripped line — then run the pattern checks. -/
def perfStep (st : Bool × List PerfIssue) (il : Nat × String) : Bool × List PerfIssue :=
  let stripped := pyStrip il.2
  let in_loop :=
    if "for ".data.isPrefixOf stripped.data || "while ".data.isPrefixOf stripped.data then true
    else if !stripped.data.isEmpty && !(" ".data.isPrefixOf stripped.data) && st.1 then false
    else st.1
  (in_loop, st.2 ++ perfLineIssues in_loop il.1 stripped)

/-- Model of `enumerate(lines, k)`. -/
def enumFrom (k : Nat) : List String → List (Nat × String)
  | [] => []
  | l :: ls => (k, l) :: enumFrom (k + 1) ls

/-- The dict returned at source lines 203-208. -/
structure PerfResult where
  status : String
  issues_found : Nat
  performance_issues : List PerfIssue
  optimized : Bool
deriving DecidableEq, Repr

/-- Model of `check_performance_issues`. -/
def check_performance_issues (code : String) : PerfResult :=
  let lines := pySplitLines code
  let performance_issues := ((enumFrom 1 lines).foldl perfStep (false, [])).2
  ⟨"success", performance_issues.length, performance_issues, performance_issues.length == 0⟩

/-!
Structure analyzer: `analyze_code_structure` (agent_tools.py lines 3-80).
The walk loop (lines 28-67) appends to four lists; each per-node
contribution below is the body of the matching `isinstance` branch, and the
result lists are those contributions joined in walk order.
-/

/-- The `func_info` dict, source lines 30-35. -/
structure FuncInfo where
  name : String
  args : Nat
  line_number : Nat
  has_docstring : Bool
deriving DecidableEq, Repr

/-- The `class_info` dict, source lines 49-54. -/
structure ClassInfo where
  name : String
  line_number : Nat
  methods : Nat
  has_docstring : Bool
deriving DecidableEq, Repr

/-- The function record a node contributes (source lines 29-36). -/
def funcInfoOf : PyNode → Option FuncInfo
  | .functionDef name args lineno doc _ => some ⟨name, args, lineno, doc.isSome⟩
  | _ => none

/-- The class record a node contributes (source lines 48-55); `methods`
counts the plain `FunctionDef` statements directly in the class body. -/
def classInfoOf : PyNode → Option ClassInfo
  | .classDef name lineno doc body =>
      some ⟨name, lineno, (body.filter isFunctionDef).length, doc.isSome⟩
  | _ => none

/-- The module names a node contributes to `analysis["imports"]` (source
lines 62-67): each alias name of a plain `import`, or the possibly-absent
`node.module` of a `from ... import`. -/
def importsOf : PyNode → List (Option String)
  | .importNode names => names.map some
  | .importFrom module => [module]
  | _ => []

/-- The issue strings a node contributes to `analysis["issues"]` (source
lines 38-46 for functions, 57-60 for classes). -/
def structIssuesOf : PyNode → List String
  | .functionDef name args lineno doc _ =>
      (if doc.isSome then []
       else [s!"Function '{name}' at line {lineno} missing docstring"]) ++
      (if args > 5 then
         [s!"Function '{name}' has {args} parameters (>5 suggests complexity)"]
       else [])
  | .classDef name lineno doc _ =>
      if doc.isSome then []
      else [s!"Class '{name}' at line {lineno} missing docstring"]
  | _ => []

/-- The `analysis` dict built at source lines 18-25 and filled by the walk
loop. -/
structure StructAnalysis where
  status : String
  functions : List FuncInfo
  classes : List ClassInfo
  imports : List (Option String)
  lines_of_code : Nat
  issues : List String
deriving DecidableEq, Repr

/-- The keys of that dict, in the order of the literal at source
lines 18-25; there is no `issues_found` key. -/
def analysisDictKeys : List String :=
  ["status", "functions", "classes", "imports", "lines_of_code", "issues"]

/-- Keys of the dict `check_security_issues` returns (source
lines 134-139). -/
def securityDictKeys : List String :=
  ["status", "issues_found", "security_issues", "safe"]

/-- Keys of the dict `check_performance_issues` returns (source
lines 203-208). -/
def performanceDictKeys : List String :=
  ["status", "issues_found", "performance_issues", "optimized"]

/-- Keys of the dict `check_documentation` returns on success (source
lines 275-280). -/
def documentationDictKeys : List String :=
  ["status", "issues_found", "documentation_issues", "well_documented"]

/-- The error dict both tree-based analyzers return from their `except`
clauses. -/
structure ErrorResult where
  status : String
  error_message : String
deriving DecidableEq, Repr

/-- Result of `analyze_code_structure`: the filled `analysis` dict, or an
error dict. -/
inductive StructResult where
  | ok (a : StructAnalysis)
  | err (e : ErrorResult)
deriving DecidableEq, Repr

/-- The successful analysis of a parsed tree: the walk loop of source
lines 28-67, with each list the join of the per-node contributions in walk
order. -/
def structAnalysis (code : String) (tree : PyNode) : StructAnalysis :=
  let ns := walk tree
  ⟨"success",
   ns.filterMap funcInfoOf,
   ns.filterMap classInfoOf,
   (ns.map importsOf).flatten,
   (pySplitLines code).length,
   (ns.map structIssuesOf).flatten⟩

/-- The message of the `except SyntaxError` clause (source lines 71-75)
resp. the `except Exception` clause (lines 76-80). -/
def structErrMsg : ParseErr → String
  | .syntaxError m => "Syntax error in code: " ++ m
  | .otherError m => "Error analyzing code: " ++ m

/-- Model of `analyze_code_structure`; the outcome of the external
`ast.parse(code)` call is passed in as `parsed`. -/
def analyze_code_structure (code : String) (parsed : Except ParseErr PyNode) : StructResult :=
  match parsed with
  | .ok tree => .ok (structAnalysis code tree)
  | .error e => .err ⟨"error", structErrMsg e⟩

/-!
Documentation auditor: `check_documentation` (agent_tools.py
lines 211-286).
-/

/-- One entry of the `doc_issues` list (the dicts built at source
lines 233-272). -/
structure DocIssue where
  line : Nat
  element : String
  type : String
  issue : String
  severity : String
deriving DecidableEq, Repr

/-- The issues one walked node contributes: the body of the
`isinstance(node, (ast.FunctionDef, ast.ClassDef))` branch, source
lines 227-273.  In the `has_return` test the Python source filters the
walked nodes by `n != node`, an object-identity test; `node` here is the
audited `FunctionDef` while `isinstance(n, ast.Return)` forces `n` to be a
`Return` node, so that filter never rejects a candidate and the condition
holds iff some `Return` occurs in the walk. -/
def auditNode : PyNode → List DocIssue
  | .functionDef name args lineno docstring body =>
    match docstring with
    | none => [⟨lineno, name, "Function", "Missing docstring", "HIGH"⟩]
    | some d =>
      if d.length < 20 then
        [⟨lineno, name, "Function", "Docstring too brief (< 20 chars)", "MEDIUM"⟩]
      else
        let has_params := decide (args > 0)
        let mentions_params := containsStr d "Args:" || containsStr d "Parameters:"
        let has_return := (walk (.functionDef name args lineno docstring body)).any isRet
        let mentions_return := containsStr d "Returns:" || containsStr d "Return:"
        (if has_params && !mentions_params then
           [⟨lineno, name, "Function", "Docstring doesn't document parameters", "MEDIUM"⟩]
         else []) ++
        (if has_return && !mentions_return then
           [⟨lineno, name, "Function", "Docstring doesn't document return value", "LOW"⟩]
         else [])
  | .classDef name lineno docstring _ =>
    match docstring with
    | none => [⟨lineno, name, "Class", "Missing docstring", "HIGH"⟩]
    | some d =>
      if d.length < 20 then
        [⟨lineno, name, "Class", "Docstring too brief (< 20 chars)", "MEDIUM"⟩]
      else []
  | _ => []

/-- The dict returned at source lines 275-280. -/
structure DocAnalysis where
  status : String
  issues_found : Nat
  documentation_issues : List DocIssue
  well_documented : Bool
deriving DecidableEq, Repr

/-- Result of `check_documentation`. -/
inductive DocResult where
  | ok (a : DocAnalysis)
  | err (e : ErrorResult)
deriving DecidableEq, Repr

/-- The successful audit of a parsed tree: the walk loop of source
lines 226-273 joined in walk order, then the result dict. -/
def docSuccess (tree : PyNode) : DocAnalysis :=
  let doc_issues := ((walk tree).map auditNode).flatten
  ⟨"success", doc_issues.length, doc_issues, doc_issues.length == 0⟩

/-- Model of `check_documentation`; the `except Exception` clause (source
lines 282-286) returns `str(e)` as the message. -/
def check_documentation (parsed : Except ParseErr PyNode) : DocResult :=
  match parsed with
  | .ok tree => .ok (docSuccess tree)
  | .error e => .err ⟨"error", e.str⟩

/-!
Helper lemmas.
-/

/-- A filter that accepts every element of a list is the identity. -/
theorem filter_all {α : Type} {p : α → Bool} : ∀ l : List α, (∀ a ∈ l, p a = true) →
    l.filter p = l := by
  intro l h
  induction l with
  | nil => rfl
  | cons x xs ih =>
    have hx := h x (by simp)
    have ih2 := ih (fun a ha => h a (by simp [ha]))
    simp [List.filter_cons, hx, ih2]

/-- A filter that rejects every element of a list is empty. -/
theorem filter_none {α : Type} {p : α → Bool} : ∀ l : List α, (∀ a ∈ l, p a = false) →
    l.filter p = [] := by
  intro l h
  induction l with
  | nil => rfl
  | cons x xs ih =>
    have hx := h x (by simp)
    have ih2 := ih (fun a ha => h a (by simp [ha]))
    simp [List.filter_cons, hx, ih2]

/-- Every issue `scanLine i l` emits carries line number `i`. -/
theorem scanLine_line_eq : ∀ i l f, f ∈ scanLine i l → f.line = i := by
  intro i l f hf
  simp only [scanLine, List.mem_filterMap] at hf
  obtain ⟨pm, _, hsome⟩ := hf
  split at hsome
  · cases hsome; rfl
  · cases hsome

/-- Issues of `scanLinesFrom k` carry line numbers at least `k`. -/
theorem scanLinesFrom_line_ge : ∀ ls k f, f ∈ scanLinesFrom k ls → k ≤ f.line := by
  intro ls
  induction ls with
  | nil => intro k f hf; cases hf
  | cons l ls ih =>
    intro k f hf
    simp only [scanLinesFrom, List.mem_append] at hf
    cases hf with
    | inl h => exact (scanLine_line_eq k l f h).ge
    | inr h => exact Nat.le_of_succ_le (ih (k + 1) f h)

/-- Selecting the issues of one line number out of a scan recovers exactly
that line's contribution. -/
theorem scanLinesFrom_filter : ∀ ls i k l j, ls.get? i = some l → j = k + i →
    (scanLinesFrom k ls).filter (fun f => f.line == j) = scanLine j l := by
  intro ls
  induction ls with
  | nil => intro i k l j h; cases h
  | cons hd tl ih =>
    intro i k l j hget hj
    cases i with
    | zero =>
      simp only [List.get?] at hget
      cases hget
      simp only [scanLinesFrom, List.filter_append]
      rw [filter_all (scanLine k hd) (fun f hf => by
            simp [scanLine_line_eq k hd f hf, hj])]
      rw [filter_none (scanLinesFrom (k + 1) tl) (fun f hf => by
            have := scanLinesFrom_line_ge tl (k + 1) f hf
            simp only [beq_eq_false_iff_ne, ne_eq]
            omega)]
      simp [hj]
    | succ i2 =>
      simp only [List.get?] at hget
      simp only [scanLinesFrom, List.filter_append]
      rw [filter_none (scanLine k hd) (fun f hf => by
            have := scanLine_line_eq k hd f hf
            simp only [beq_eq_false_iff_ne, ne_eq]
            omega)]
      rw [ih i2 (k + 1) l j hget (by omega)]
      simp

/-- An issue a line contributes is an issue of the whole scan. -/
theorem mem_scanLinesFrom : ∀ ls i k l f, ls.get? i = some l →
    f ∈ scanLine (k + i) l → f ∈ scanLinesFrom k ls := by
  intro ls
  induction ls with
  | nil => intro i k l f h; cases h
  | cons hd tl ih =>
    intro i k l f hget hf
    cases i with
    | zero =>
      simp only [List.get?] at hget
      cases hget
      simp only [scanLinesFrom, List.mem_append]
      exact Or.inl hf
    | succ i2 =>
      simp only [List.get?] at hget
      simp only [scanLinesFrom, List.mem_append]
      exact Or.inr (ih i2 (k + 1) l f hget (by
        have : k + 1 + i2 = k + (i2 + 1) := by omega
        rw [this]; exact hf))

/-- Every issue of the scan comes from some line's contribution. -/
theorem scanLinesFrom_src : ∀ ls k f, f ∈ scanLinesFrom k ls → ∃ j l, f ∈ scanLine j l := by
  intro ls
  induction ls with
  | nil => intro k f h; cases h
  | cons hd tl ih =>
    intro k f hf
    simp only [scanLinesFrom, List.mem_append] at hf
    cases hf with
    | inl h => exact ⟨k, hd, h⟩
    | inr h => exact ih (k + 1) f h

/-- A list is a prefix of itself. -/
theorem pfx_refl : ∀ l : List Char, l.isPrefixOf l = true := by
  intro l
  induction l with
  | nil => rfl
  | cons c cs ih => simp [List.isPrefixOf, ih]

/-- A suffix passes the substring test. -/
theorem substr_suffix : ∀ pre p : List Char, substrB p (pre ++ p) = true := by
  intro pre p
  induction pre with
  | nil =>
    cases p with
    | nil => rfl
    | cons c cs => simp [substrB, pfx_refl]
  | cons c pre ih => simp [substrB, ih]

/-- A string contains its own suffix. -/
theorem containsStr_append (pre m : String) : containsStr (pre ++ m) m = true := by
  show substrB m.data (pre ++ m).data = true
  have : (pre ++ m).data = pre.data ++ m.data := String.data_append pre m
  rw [this]
  exact substr_suffix pre.data m.data

/-!
Claim theorems.
-/

/-- Claim C1, what the code actually does at the claim's central input.
The claim says an `.append(` line immediately following a `for` header at
deeper indentation yields a LOW finding.  In the source the dedent test of
line 183 is made on the already-stripped line, so `stripped.startswith(' ')`
is always false and any non-blank non-header line — including the indented
append itself — clears the in-loop flag before the pattern check of that
same line runs; the scan therefore emits no finding at all here. -/
theorem c1_append_after_for_yields_no_finding :
    check_performance_issues "for i in range(10):\n    result.append(i)" =
      ⟨"success", 0, [], true⟩ := by decide

/-- Claim C2, what the code actually does on a line containing `secret`.
The claim says every line containing "secret" in any case yields a finding
for the secret pattern.  In the source the table entry is the uppercase
literal `SECRET` while each line is lowercased before the substring test,
so that entry can never match and the scan emits no finding. -/
theorem c2_secret_line_yields_no_finding :
    check_security_issues "secret = \"abc\"" = ⟨"success", 0, [], true⟩ := by decide

/-- Counterexample to claim C3: a function whose docstring is adequate
(25 characters, no "Returns:") and whose only return statement is a bare
`return` still receives the "doesn't document return value" finding,
because the code tests for any `ast.Return` node, not only
return-with-value. -/
theorem c3_counterexample :
    check_documentation (Except.ok (PyNode.other [PyNode.functionDef "f" 0 1
        (some "This is a long docstring.") [PyNode.returnStmt false]])) =
      DocResult.ok ⟨"success", 1,
        [⟨1, "f", "Function", "Docstring doesn't document return value", "LOW"⟩], false⟩ := by
  simp [check_documentation, docSuccess, walk, walkAux, PyNode.children, auditNode, isRet]
  decide

/-- Claim C3 as amended: for a function node with an adequate docstring
(length at least 20), the severity-LOW "doesn't document return value"
finding is emitted iff the function's walk contains at least one return
statement — bare or with a value — and the docstring contains neither
"Returns:" nor "Return:". -/
theorem c3_return_finding_iff_any_return (name : String) (args lineno : Nat) (d : String)
    (body : List PyNode) (h : 20 ≤ d.length) :
    ((auditNode (.functionDef name args lineno (some d) body)).any
        (fun f => f.issue == "Docstring doesn't document return value")) =
      ((walk (.functionDef name args lineno (some d) body)).any isRet &&
       !(containsStr d "Returns:" || containsStr d "Return:")) := by
  simp only [auditNode]
  rw [if_neg (by omega)]
  cases hr : (walk (.functionDef name args lineno (some d) body)).any isRet <;>
  cases hm : (containsStr d "Returns:" || containsStr d "Return:") <;>
  cases hp : (decide (args > 0) && !(containsStr d "Args:" || containsStr d "Parameters:")) <;>
    simp [List.any_append, hr, hm, hp]

/-- Witness for c3_return_finding_iff_any_return at a concrete function. -/
theorem c3_witness :
    20 ≤ ("This is a long docstring." : String).length ∧
    ((auditNode (.functionDef "g" 0 2 (some "This is a long docstring.") [.returnStmt true])).any
        (fun f => f.issue == "Docstring doesn't document return value")) =
      ((walk (.functionDef "g" 0 2 (some "This is a long docstring.") [.returnStmt true])).any isRet &&
       !(containsStr "This is a long docstring." "Returns:" ||
         containsStr "This is a long docstring." "Return:")) :=
  ⟨by decide, c3_return_finding_iff_any_return "g" 0 2 "This is a long docstring." [.returnStmt true] (by decide)⟩

/-- Counterexample to claim C4: the claim quantifies over all FOUR
analyzers, but the structure analyzer's success dict (source lines 18-25)
carries no `issues_found` key at all, while the other three do. -/
theorem c4_counterexample :
    analyze_code_structure "x = 1" (Except.ok (PyNode.other [])) =
      StructResult.ok (structAnalysis "x = 1" (PyNode.other [])) ∧
    (structAnalysis "x = 1" (PyNode.other [])).status = "success" ∧
    analysisDictKeys.contains "issues_found" = false ∧
    securityDictKeys.contains "issues_found" = true ∧
    performanceDictKeys.contains "issues_found" = true ∧
    documentationDictKeys.contains "issues_found" = true :=
  ⟨rfl, rfl, by decide, by decide, by decide, by decide⟩

/-- Claim C4 as amended: for the security, performance and documentation
analyzers, every success result's `issues_found` equals the length of its
findings list; the structure analyzer's result has no such field. -/
theorem c4_issues_found_eq_length (code : String) (tree : PyNode) :
    (check_security_issues code).issues_found =
      (check_security_issues code).security_issues.length ∧
    (check_performance_issues code).issues_found =
      (check_performance_issues code).performance_issues.length ∧
    check_documentation (Except.ok tree) = DocResult.ok (docSuccess tree) ∧
    (docSuccess tree).issues_found = (docSuccess tree).documentation_issues.length :=
  ⟨rfl, rfl, rfl, rfl⟩

/-- Claim C5: any input whose i-th line is exactly `password = "admin123"`
gets, for that line, exactly one security finding: severity MEDIUM,
pattern `password`. -/
theorem c5_password_line_single_medium_finding (code : String) (i : Nat)
    (h : (pySplitLines code).get? i = some "password = \"admin123\"") :
    (check_security_issues code).security_issues.filter (fun f => f.line == i + 1) =
      [⟨i + 1, "password", "Hardcoded password detected - use environment variables",
        "MEDIUM", "password = \"admin123\""⟩] := by
  have hline : ∀ j, scanLine j "password = \"admin123\"" =
      [⟨j, "password", "Hardcoded password detected - use environment variables",
        "MEDIUM", "password = \"admin123\""⟩] := fun j => rfl
  show (scanLinesFrom 1 (pySplitLines code)).filter (fun f => f.line == i + 1) = _
  rw [scanLinesFrom_filter (pySplitLines code) i 1 _ (i + 1) h (by omega), hline]

/-- Witness for c5_password_line_single_medium_finding on the single-line
input. -/
theorem c5_witness :
    (pySplitLines "password = \"admin123\"").get? 0 = some "password = \"admin123\"" ∧
    (check_security_issues "password = \"admin123\"").security_issues.filter
        (fun f => f.line == 0 + 1) =
      [⟨0 + 1, "password", "Hardcoded password detected - use environment variables",
        "MEDIUM", "password = \"admin123\""⟩] :=
  ⟨by decide, c5_password_line_single_medium_finding "password = \"admin123\"" 0 (by decide)⟩

/-- Claim C6: every security finding has severity HIGH exactly when its
pattern is in the code-execution set {`eval(`, `exec(`, `pickle.loads`} and
MEDIUM otherwise, and a line containing `eval(` in any letter case always
yields a HIGH finding for pattern `eval(`. -/
theorem c6_severity_rule :
    (∀ code f, f ∈ (check_security_issues code).security_issues →
       ((f.severity = "HIGH" ↔ f.pattern ∈ ["eval(", "exec(", "pickle.loads"]) ∧
        (f.severity = "MEDIUM" ↔ f.pattern ∉ ["eval(", "exec(", "pickle.loads"]))) ∧
    (∀ code i line, (pySplitLines code).get? i = some line →
       containsStr (pyLower line) "eval(" = true →
       ∃ f ∈ (check_security_issues code).security_issues,
         f.line = i + 1 ∧ f.pattern = "eval(" ∧ f.severity = "HIGH") := by
  constructor
  · intro code f hf
    obtain ⟨j, l, hjl⟩ := scanLinesFrom_src (pySplitLines code) 1 f hf
    simp only [scanLine, List.mem_filterMap] at hjl
    obtain ⟨pm, hpm, hsome⟩ := hjl
    simp only [dangerous_patterns, List.mem_cons, List.not_mem_nil, or_false] at hpm
    rcases hpm with rfl | rfl | rfl | rfl | rfl | rfl | rfl | rfl | rfl | rfl <;>
      · split at hsome
        · cases hsome; constructor <;> simp
        · cases hsome
  · intro code i line hget hcontains
    refine ⟨⟨1 + i, "eval(", "Dangerous use of eval() - can execute arbitrary code",
             "HIGH", pyStrip line⟩, ?_, by simp; omega, rfl, rfl⟩
    show _ ∈ scanLinesFrom 1 (pySplitLines code)
    apply mem_scanLinesFrom (pySplitLines code) i 1 line _ hget
    simp only [scanLine, List.mem_filterMap]
    refine ⟨("eval(", "Dangerous use of eval() - can execute arbitrary code"),
            by simp [dangerous_patterns], ?_⟩
    rw [hcontains]
    simp

/-- Witness for c6_severity_rule: the eval part at a concrete input. -/
theorem c6_witness :
    ∃ f ∈ (check_security_issues "x = eval(input())").security_issues,
      f.line = 0 + 1 ∧ f.pattern = "eval(" ∧ f.severity = "HIGH" :=
  c6_severity_rule.2 "x = eval(input())" 0 "x = eval(input())" (by decide) (by decide)

/-- Claim C7: a function or class node without a docstring contributes
exactly one finding — severity HIGH, issue "Missing docstring" — and no
brief/parameter/return finding. -/
theorem c7_missing_docstring_exactly_one (name : String) (args lineno : Nat)
    (body : List PyNode) :
    auditNode (.functionDef name args lineno none body) =
      [⟨lineno, name, "Function", "Missing docstring", "HIGH"⟩] ∧
    auditNode (.classDef name lineno none body) =
      [⟨lineno, name, "Class", "Missing docstring", "HIGH"⟩] := ⟨rfl, rfl⟩

/-- Claim C8: when parsing fails, the structure analyzer and the
documentation auditor both return a status-error result whose message
contains the parser's diagnostic, with no findings and no partial data
(the error dict carries only status and error_message); both model
functions are total, so no exception escapes the boundary. -/
theorem c8_parse_failure_error_result (code : String) (e : ParseErr) :
    analyze_code_structure code (Except.error e) = StructResult.err ⟨"error", structErrMsg e⟩ ∧
    containsStr (structErrMsg e) e.str = true ∧
    check_documentation (Except.error e) = DocResult.err ⟨"error", e.str⟩ ∧
    containsStr e.str e.str = true := by
  refine ⟨rfl, ?_, rfl, ?_⟩
  · cases e with
    | syntaxError m => exact containsStr_append "Syntax error in code: " m
    | otherError m => exact containsStr_append "Error analyzing code: " m
  · have := containsStr_append "" e.str
    simpa using this

/-- Claim C9: an `async def` node is invisible to both tree-based
analyzers — it contributes no function record, no class record, no import,
no structure issue and no documentation issue, and a tree holding only such
a node yields empty function and issue lists from both analyzers. -/
theorem c9_async_def_invisible (code name : String) (args lineno : Nat) (doc : Option String)
    (body : List PyNode) :
    funcInfoOf (.asyncFunctionDef name args lineno doc body) = none ∧
    classInfoOf (.asyncFunctionDef name args lineno doc body) = none ∧
    importsOf (.asyncFunctionDef name args lineno doc body) = [] ∧
    structIssuesOf (.asyncFunctionDef name args lineno doc body) = [] ∧
    auditNode (.asyncFunctionDef name args lineno doc body) = [] ∧
    (structAnalysis code (.other [.asyncFunctionDef name args lineno doc []])).functions = [] ∧
    (structAnalysis code (.other [.asyncFunctionDef name args lineno doc []])).issues = [] ∧
    (docSuccess (.other [.asyncFunctionDef name args lineno doc []])).documentation_issues = [] := by
  refine ⟨rfl, rfl, rfl, rfl, rfl, ?_, ?_, ?_⟩ <;>
    simp [structAnalysis, docSuccess, walk, walkAux, PyNode.children, funcInfoOf,
          structIssuesOf, auditNode]

/-- Claim C10: a `from`-import with no module part contributes a None entry
to the returned imports list, in place of a module name. -/
theorem c10_import_from_none_recorded (code : String) (tree : PyNode)
    (h : PyNode.importFrom none ∈ walk tree) :
    analyze_code_structure code (Except.ok tree) = StructResult.ok (structAnalysis code tree) ∧
    none ∈ (structAnalysis code tree).imports := by
  refine ⟨rfl, ?_⟩
  show none ∈ ((walk tree).map importsOf).flatten
  rw [List.mem_flatten]
  exact ⟨[none], List.mem_map_of_mem importsOf h, by simp⟩

/-- Witness for c10_import_from_none_recorded on a one-statement module. -/
theorem c10_witness :
    analyze_code_structure "from . import x" (Except.ok (PyNode.other [PyNode.importFrom none])) =
      StructResult.ok (structAnalysis "from . import x" (PyNode.other [PyNode.importFrom none])) ∧
    none ∈ (structAnalysis "from . import x" (PyNode.other [PyNode.importFrom none])).imports :=
  c10_import_from_none_recorded "from . import x" (PyNode.other [PyNode.importFrom none])
    (by simp [walk, walkAux, PyNode.children])
